import Mathlib

/-!
Verification development for the gemini-cli-mcp-server repository
(src/enhanced-stdio-server.ts).

The server is a line-delimited JSON-RPC 2.0 adapter over stdio.  We give a
shallow embedding of its request router, tool dispatcher, conversation store
and response encoder.  JavaScript values produced by JSON.parse are modelled
by the inductive type Json below; the absent value undefined is modelled as
Option.none at every property-access site.  The external Gemini SDK
(@google/genai) and the JSON.parse builtin are external collaborators and are
modelled as oracles (a Provider structure of possibly-throwing operations and
a parse function parameter).  Exceptions are modelled by Except with an Exn
type distinguishing Error instances (which carry a .message) from other
thrown values, mirroring the instanceof-Error tests in the catch blocks.
-/

/-- A JSON value (result of JSON.parse / argument to JSON.stringify).
Numbers are modelled as rationals; the claims never depend on floating-point
behaviour of any number, only on carrying values through. -/
inductive Json where
  | null
  | bool (b : Bool)
  | num (q : Rat)
  | str (s : String)
  | arr (xs : List Json)
  | obj (fields : List (String × Json))

mutual

def jeq : Json → Json → Bool
  | .null, .null => true
  | .bool a, .bool b => a == b
  | .num a, .num b => a == b
  | .str a, .str b => a == b
  | .arr a, .arr b => jeqL a b
  | .obj a, .obj b => jeqF a b
  | _, _ => false

def jeqL : List Json → List Json → Bool
  | [], [] => true
  | a :: as, b :: bs => jeq a b && jeqL as bs
  | _, _ => false

def jeqF : List (String × Json) → List (String × Json) → Bool
  | [], [] => true
  | (k, v) :: as, (l, w) :: bs => k == l && jeq v w && jeqF as bs
  | _, _ => false

end

/-- JavaScript truthiness of a JSON value (NaN cannot arise from JSON.parse). -/
def Json.truthy : Json → Bool
  | .null => false
  | .bool b => b
  | .num q => q != 0
  | .str s => s != ""
  | .arr _ => true
  | .obj _ => true

/-- Truthiness of a possibly-undefined value (undefined is falsy). -/
def truthyO : Option Json → Bool
  | none => false
  | some v => v.truthy

/-- JavaScript a || b where a may be undefined: a if truthy, else b. -/
def jsOr (a : Option Json) (b : Json) : Json :=
  match a with
  | some v => if v.truthy then v else b
  | none => b

/-- JavaScript a ?? b where a may be undefined: b exactly when a is
undefined or null. -/
def nullish (a : Option Json) (b : Json) : Json :=
  match a with
  | some .null => b
  | some v => v
  | none => b

/-- Property lookup where the last occurrence of a duplicated key wins,
matching the object JSON.parse builds from duplicate keys. -/
def lookupLast : List (String × Json) → String → Option Json
  | [], _ => none
  | (k, v) :: rest, key =>
    match lookupLast rest key with
    | some w => some w
    | none => if k = key then some v else none

/-- Property access o.k on a value known not to be null or undefined
(own data properties only; JSON.parse objects have no exotic prototype
data properties, see the note at lookupModel for the one caveat). -/
def getProp (j : Json) (k : String) : Option Json :=
  match j with
  | .obj fs => lookupLast fs k
  | _ => none

def containsKey (fs : List (String × Json)) (k : String) : Bool :=
  fs.any (fun f => f.1 == k)

-- Characters and numerals -----------------------------------------------

def digitChar (n : Nat) : Char :=
  "0123456789".data.getD n '0'

/-- Decimal digits of a natural number; the fuel argument (any bound above
the number itself) keeps the recursion structural so that proofs can
evaluate it. -/
def natCharsAux : Nat → Nat → List Char
  | 0, _ => []
  | fuel + 1, n => if n < 10 then [digitChar n] else natCharsAux fuel (n / 10) ++ [digitChar (n % 10)]

def natLit (n : Nat) : String :=
  String.mk (natCharsAux (n + 1) n)

def intLit (i : Int) : String :=
  if i < 0 then "-" ++ natLit i.natAbs else natLit i.natAbs

/-- Rendering of a JSON number.  Integers are rendered exactly; the decimal
rendering of non-integral numbers is abstracted (no claim inspects the text
of a rendered numeral, only that it contains no line break). -/
def numLit (q : Rat) : String :=
  if q.den = 1 then intLit q.num else intLit q.num ++ "d" ++ natLit q.den

def hexDigit (n : Nat) : Char :=
  "0123456789abcdef".data.getD (n % 16) '0'

/-- String-character escaping of JSON.stringify: the two-character escapes
for quote, backslash and the five named control characters, and a unicode
escape for the remaining control characters. -/
def escChar (c : Char) : String :=
  if c = '"' then "\\\""
  else if c = '\\' then "\\\\"
  else if c = '\n' then "\\n"
  else if c = '\r' then "\\r"
  else if c = '\t' then "\\t"
  else if c = Char.ofNat 8 then "\\b"
  else if c = Char.ofNat 12 then "\\f"
  else if c.toNat < 32 then "\\u00" ++ String.mk [hexDigit (c.toNat / 16), hexDigit (c.toNat % 16)]
  else String.mk [c]

def escapeString (s : String) : String :=
  s.data.foldr (fun c acc => escChar c ++ acc) ""

def quoteStr (s : String) : String :=
  "\"" ++ escapeString s ++ "\""

def joinComma : List String → String
  | [] => ""
  | [x] => x
  | x :: y :: xs => x ++ "," ++ joinComma (y :: xs)

mutual

/-- JSON.stringify with no indentation, as used by sendResponse and by the
nested stringify calls inside tool handlers. -/
def Json.serialize : Json → String
  | .null => "null"
  | .bool b => if b then "true" else "false"
  | .num q => numLit q
  | .str s => quoteStr s
  | .arr xs => "[" ++ serializeItems xs ++ "]"
  | .obj fs => "\x7b" ++ serializeFields fs ++ "\x7d"

def serializeItems : List Json → String
  | [] => ""
  | [x] => x.serialize
  | x :: y :: xs => x.serialize ++ "," ++ serializeItems (y :: xs)

def serializeFields : List (String × Json) → String
  | [] => ""
  | [(k, v)] => quoteStr k ++ ":" ++ v.serialize
  | (k, v) :: f :: fs => quoteStr k ++ ":" ++ v.serialize ++ "," ++ serializeFields (f :: fs)

end

mutual

/-- JSON.stringify with two-space indentation, JSON.stringify(v, null, 2),
used for the text bodies produced by listModels and resource reads.  The
ind argument is the current indentation prefix. -/
def prettySer : String → Json → String
  | _, .null => "null"
  | _, .bool b => if b then "true" else "false"
  | _, .num q => numLit q
  | _, .str s => quoteStr s
  | _, .arr [] => "[]"
  | ind, .arr (x :: xs) => "[\n" ++ prettyItems (ind ++ "  ") (x :: xs) ++ "\n" ++ ind ++ "]"
  | _, .obj [] => "\x7b\x7d"
  | ind, .obj (f :: fs) => "\x7b\n" ++ prettyFields (ind ++ "  ") (f :: fs) ++ "\n" ++ ind ++ "\x7d"

def prettyItems : String → List Json → String
  | _, [] => ""
  | ind, [x] => ind ++ prettySer ind x
  | ind, x :: y :: xs => ind ++ prettySer ind x ++ ",\n" ++ prettyItems ind (y :: xs)

def prettyFields : String → List (String × Json) → String
  | _, [] => ""
  | ind, [(k, v)] => ind ++ quoteStr k ++ ": " ++ prettySer ind v
  | ind, (k, v) :: f :: fs => ind ++ quoteStr k ++ ": " ++ prettySer ind v ++ ",\n" ++ prettyFields ind (f :: fs)

end

def prettyStringify (j : Json) : String :=
  prettySer "" j

mutual

/-- JavaScript string coercion String(v), as performed by template
literals.  Arrays join their elements with commas (null rendering as the
empty string), plain objects render as [object Object]. -/
def jsToString : Json → String
  | .null => "null"
  | .bool b => if b then "true" else "false"
  | .num q => numLit q
  | .str s => s
  | .arr xs => jsJoin xs
  | .obj _ => "[object Object]"

def jsJoin : List Json → String
  | [] => ""
  | [x] => jsElem x
  | x :: y :: xs => jsElem x ++ "," ++ jsJoin (y :: xs)

def jsElem : Json → String
  | .null => ""
  | .bool b => if b then "true" else "false"
  | .num q => numLit q
  | .str s => s
  | .arr xs => jsJoin xs
  | .obj _ => "[object Object]"

end

/-- String coercion of a possibly-undefined value, as in a template
literal. -/
def jsToStringO : Option Json → String
  | none => "undefined"
  | some v => jsToString v

-- Exceptions and the provider oracle -------------------------------------

/-- A thrown JavaScript value: either an Error instance carrying a message,
or any other thrown value.  The catch blocks test instanceof Error. -/
inductive Exn where
  | jsError (msg : String)
  | otherThrow

/-- The expression: error instanceof Error ? error.message : fallback. -/
def exnMessage (e : Exn) (fallback : String) : String :=
  match e with
  | .jsError m => m
  | .otherThrow => fallback

/-- A call made against the external @google/genai SDK, recorded with the
exact arguments the server passed. -/
inductive ProviderCall where
  | generateContent (model : Json) (contents : List Json) (config : Option Json)
  | countTokens (model : Json) (contents : List Json)
  | embedContent (model : Json) (contents : Option Json)

/-- The contents argument of a recorded provider call (empty for embed,
whose contents is a bare value). -/
def callContents : ProviderCall → List Json
  | .generateContent _ c _ => c
  | .countTokens _ c => c
  | .embedContent _ _ => []

/-- The external Gemini SDK, as an oracle: each operation either returns a
result object or throws. -/
structure Provider where
  generateContent : Json → List Json → Option Json → Except Exn Json
  countTokens : Json → List Json → Except Exn Json
  embedContent : Json → Option Json → Except Exn Json

-- Responses and the encoder ----------------------------------------------

/-- An RPC-level error descriptor. -/
structure RpcError where
  code : Int
  message : String

/-- An MCPResponse value as built by the handlers: jsonrpc is always the
constant 2.0; the id field echoes request.id (undefined when the request
had none, in which case JSON.stringify omits the key); exactly one of
result and error is set by every construction site in the source. -/
structure MCPResponse where
  id : Option Json
  result : Option Json
  error : Option RpcError

/-- A field that is dropped when its value is undefined, as JSON.stringify
does to object properties holding undefined. -/
def optField (k : String) (v : Option Json) : List (String × Json) :=
  match v with
  | some j => [(k, j)]
  | none => []

def MCPResponse.toJson (r : MCPResponse) : Json :=
  .obj ([("jsonrpc", .str "2.0")] ++ optField "id" r.id ++ optField "result" r.result ++
    (match r.error with
     | some e => [("error", .obj [("code", .num (e.code : Rat)), ("message", .str e.message)])]
     | none => []))

/-- The response encoder (private sendResponse): the exact byte string
written to the output channel for a response, JSON.stringify(response)
plus a single newline. -/
def sendResponse (r : MCPResponse) : String :=
  (MCPResponse.toJson r).serialize ++ "\n"

-- The model registry ------------------------------------------------------

/-- Static description of one registered Gemini model (the fields of the
GEMINI_MODELS object literals; maxOutputTokens and thinkingLevels are
absent on the 2.5-series entries). -/
structure ModelInfo where
  description : String
  features : List String
  contextWindow : Nat
  maxOutputTokens : Option Nat
  thinking : Bool
  thinkingLevels : Option (List String)

def GEMINI_MODELS : List (String × ModelInfo) :=
  [ ("gemini-3-pro-preview",
     { description := "Most capable reasoning model, state-of-the-art multimodal and agentic"
       features := ["thinking", "function_calling", "json_mode", "grounding", "system_instructions"]
       contextWindow := 1048576
       maxOutputTokens := some 65536
       thinking := true
       thinkingLevels := some ["low", "high"] }),
    ("gemini-3-flash-preview",
     { description := "Best balance of speed, scale, and frontier intelligence"
       features := ["thinking", "function_calling", "json_mode", "grounding", "system_instructions"]
       contextWindow := 1048576
       maxOutputTokens := some 65536
       thinking := true
       thinkingLevels := some ["minimal", "low", "medium", "high"] }),
    ("gemini-2.5-pro",
     { description := "Previous generation thinking model, complex reasoning and coding"
       features := ["thinking", "function_calling", "json_mode", "grounding", "system_instructions"]
       contextWindow := 2000000
       maxOutputTokens := none
       thinking := true
       thinkingLevels := none }),
    ("gemini-2.5-flash",
     { description := "Previous generation fast thinking model"
       features := ["thinking", "function_calling", "json_mode", "grounding", "system_instructions"]
       contextWindow := 1000000
       maxOutputTokens := none
       thinking := true
       thinkingLevels := none }),
    ("gemini-2.5-flash-lite",
     { description := "Previous generation ultra-fast, cost-efficient thinking model"
       features := ["thinking", "function_calling", "json_mode", "system_instructions"]
       contextWindow := 1000000
       maxOutputTokens := none
       thinking := true
       thinkingLevels := none }) ]

def modelNames : List String :=
  GEMINI_MODELS.map (fun m => m.1)

/-- The inherited members reachable on a plain object literal through the
prototype chain. -/
def objectProtoKeys : List String :=
  ["constructor", "hasOwnProperty", "isPrototypeOf", "propertyIsEnumerable",
   "toLocaleString", "toString", "valueOf", "__defineGetter__", "__defineSetter__",
   "__lookupGetter__", "__lookupSetter__", "__proto__"]

/-- What the bracket lookup GEMINI_MODELS[model] yields after the key is
coerced to a string: an own entry, an inherited Object.prototype member
(a truthy value carrying neither a features list nor a thinking flag, so
the unknown-model throw is bypassed and the name is forwarded to the
provider), or undefined. -/
inductive ModelLookup where
  | absent
  | protoMember
  | info (mi : ModelInfo)

def lookupModel (m : Json) : ModelLookup :=
  match List.lookup (jsToString m) GEMINI_MODELS with
  | some mi => .info mi
  | none => if objectProtoKeys.contains (jsToString m) then .protoMember else .absent

/-- The DEFAULT_MODEL start-up computation: the GEMINI_DEFAULT_MODEL
environment variable when it names a known model, else the hard-coded
fallback (with a start-up warning on the diagnostic channel, not modelled
because it happens before any request is served). -/
def computeDefaultModel (envModel : Option String) : String :=
  match envModel with
  | some e => if (List.lookup e GEMINI_MODELS).isSome then e else "gemini-3-pro-preview"
  | none => "gemini-3-pro-preview"

-- Conversation store ------------------------------------------------------

/-- Process-wide mutable state: the conversations Map from identifier to
turn list.  JavaScript Map keys compare primitives by value; an object or
array identifier would compare by reference (always fresh after
JSON.parse) where this model compares structurally - the difference is
unobservable for the primitive identifiers the theorems use. -/
structure ServerState where
  conversations : List (Json × List Json)

def mapGet : List (Json × List Json) → Json → Option (List Json)
  | [], _ => none
  | (k, v) :: rest, key => if jeq k key then some v else mapGet rest key

def mapSet : List (Json × List Json) → Json → List Json → List (Json × List Json)
  | [], key, v => [(key, v)]
  | (k, w) :: rest, key, v =>
    if jeq k key then (k, v) :: rest else (k, w) :: mapSet rest key v

-- Optional chaining helpers ----------------------------------------------

/-- Optional chaining a?.k : undefined when a is undefined or null, else
property access. -/
def optChain (o : Option Json) (k : String) : Option Json :=
  match o with
  | none => none
  | some .null => none
  | some v => getProp v k

/-- Optional chaining a?.length : arrays and strings have a length
property, other values yield undefined. -/
def optLength (o : Option Json) : Option Json :=
  match o with
  | none => none
  | some .null => none
  | some (.arr xs) => some (.num (xs.length : Rat))
  | some (.str s) => some (.num (s.length : Rat))
  | some _ => none

/-- Optional chaining a?.[0] : first element of an array, first character
of a string, undefined otherwise. -/
def optIndex0 (o : Option Json) : Option Json :=
  match o with
  | none => none
  | some .null => none
  | some (.arr (x :: _)) => some x
  | some (.arr []) => none
  | some (.str s) =>
    match s.data with
    | [] => none
    | c :: _ => some (.str (String.mk [c]))
  | some _ => none

-- Tool response shapes ----------------------------------------------------

/-- The part object for a text part, with the text property dropped when
the value is undefined (as JSON.stringify would drop it). -/
def mkTextPart (t : Option Json) : Json :=
  .obj (optField "text" t)

/-- A conversation turn as the handlers build it. -/
def mkTurn (t : Option Json) (role : String) : Json :=
  .obj [("parts", .arr [mkTextPart t]), ("role", .str role)]

/-- A content item of type text. -/
def textContent (t : Json) : Json :=
  .obj [("type", .str "text"), ("text", t)]

/-- A tool-execution error payload: a result flagged isError carrying a
readable message. -/
def errorPayload (msg : String) : Json :=
  .obj [("content", .arr [textContent (.str msg)]), ("isError", .bool true)]

/-- A well-formed successful envelope whose payload is a tool-execution
error (the shape every tool catch block returns). -/
def toolErrorResp (id : Option Json) (msg : String) : MCPResponse :=
  { id := id, result := some (errorPayload msg), error := none }

/-- What one tool handler produced: the updated conversation state, the
single response it returned, its diagnostic-channel lines, and the
provider calls it made. -/
structure ToolOut where
  state : ServerState
  resp : MCPResponse
  errLog : List String
  calls : List ProviderCall

def errToolOut (st : ServerState) (id : Option Json) (msg : String)
    (logs : List String) (calls : List ProviderCall) : ToolOut :=
  { state := st, resp := toolErrorResp id msg, errLog := logs, calls := calls }

-- generate_text -----------------------------------------------------------

/-- The toUpperCase() call on args.thinkingLevel: throws a TypeError on a
truthy non-string. -/
def jsToUpperE (v : Json) : Except Exn Json :=
  match v with
  | .str s => .ok (.str s.toUpper)
  | _ => .error (.jsError "args.thinkingLevel.toUpperCase is not a function")

/-- The grounding branch of the config: args.grounding &&
modelInfo.features.includes(grounding).  When features is undefined (an
inherited prototype member was looked up) and grounding is truthy, the
includes access throws. -/
def groundingTools (a : Json) (features : Option (List String)) :
    Except Exn (List (String × Json)) :=
  if truthyO (getProp a "grounding") then
    match features with
    | some fs =>
      .ok (if fs.contains "grounding" then
             [("tools", Json.arr [Json.obj [("googleSearch", Json.obj [])]])]
           else [])
    | none => .error (.jsError "Cannot read properties of undefined (reading \x27includes\x27)")
  else .ok []

/-- The SDK config object generateText assembles: defaults for the
sampling controls, then the conditional fields in assignment order.
features and thinking are what modelInfo.features and modelInfo.thinking
evaluate to (undefined respectively falsy for a prototype member).  Two
sites can throw: the grounding includes access on undefined features, and
toUpperCase on a truthy non-string thinking level. -/
def buildGenConfig (a : Json) (features : Option (List String)) (thinking : Bool) :
    Except Exn Json :=
  let base := [("temperature", nullish (getProp a "temperature") (.num 1)),
               ("maxOutputTokens", jsOr (getProp a "maxTokens") (.num 2048)),
               ("topK", jsOr (getProp a "topK") (.num 40)),
               ("topP", jsOr (getProp a "topP") (.num (19/20)))]
  let si := if truthyO (getProp a "systemInstruction") then
      optField "systemInstruction" (getProp a "systemInstruction") else []
  let jm := if truthyO (getProp a "jsonMode") then
      [("responseMimeType", Json.str "application/json")] ++
      (if truthyO (getProp a "jsonSchema") then optField "responseSchema" (getProp a "jsonSchema") else [])
    else []
  let ss := if truthyO (getProp a "safetySettings") then
      optField "safetySettings" (getProp a "safetySettings") else []
  match groundingTools a features with
  | .error e => .error e
  | .ok gr =>
    match getProp a "thinkingLevel" with
    | some tl =>
      if tl.truthy && thinking then
        match jsToUpperE tl with
        | .ok u => .ok (.obj (base ++ si ++ jm ++ ss ++ gr ++
            [("thinkingConfig", Json.obj [("thinkingLevel", u)])]))
        | .error e => .error e
      else .ok (.obj (base ++ si ++ jm ++ ss ++ gr))
    | none => .ok (.obj (base ++ si ++ jm ++ ss ++ gr))

/-- The remainder of the generate_text try-block after the modelInfo
truthiness check passed, parameterized by what modelInfo.features and
modelInfo.thinking evaluate to. -/
def generateTextCont (prov : Provider) (st : ServerState) (id : Option Json)
    (a model : Json) (features : Option (List String)) (thinking : Bool) : ToolOut :=
  let prompt := getProp a "prompt"
  let newTurn := mkTurn prompt "user"
  let convId := getProp a "conversationId"
  let contents :=
    if truthyO convId then
      let history := (mapGet st.conversations (convId.getD .null)).getD []
      if 0 < history.length then history ++ [newTurn] else [newTurn]
    else [newTurn]
  match buildGenConfig a features thinking with
  | .error e =>
    errToolOut st id ("Error: " ++ exnMessage e "Internal error") ["Error in generateText:"] []
  | .ok config =>
    match prov.generateContent model contents (some config) with
    | .error e =>
      errToolOut st id ("Error: " ++ exnMessage e "Internal error")
        ["Error in generateText:"] [.generateContent model contents (some config)]
    | .ok res =>
      let text := jsOr (getProp res "text") (.str "")
      let st2 : ServerState :=
        if truthyO convId then
          let key := convId.getD .null
          let history := (mapGet st.conversations key).getD []
          ⟨mapSet st.conversations key (history ++ [mkTurn prompt "user", mkTurn (some text) "model"])⟩
        else st
      let meta := Json.obj ([("model", model)] ++
        optField "tokensUsed" (optChain (getProp res "usageMetadata") "totalTokenCount") ++
        [("candidatesCount", jsOr (optLength (getProp res "candidates")) (.num 1))] ++
        optField "finishReason" (optChain (optIndex0 (getProp res "candidates")) "finishReason"))
      { state := st2
        resp := { id := id
                  result := some (Json.obj [("content", .arr [textContent text]), ("metadata", meta)])
                  error := none }
        errLog := []
        calls := [.generateContent model contents (some config)] }

/-- The generate_text try-block body given a non-null arguments value (the
first property access args.model has already succeeded).  An undefined
bracket lookup throws Unknown model; an own entry or an inherited
prototype member proceeds with the respective features/thinking values. -/
def generateTextBody (prov : Provider) (dm : String) (st : ServerState)
    (id : Option Json) (a : Json) : ToolOut :=
  let model := jsOr (getProp a "model") (.str dm)
  match lookupModel model with
  | .absent =>
    errToolOut st id ("Error: Unknown model: " ++ jsToString model)
      ["Error in generateText:"] []
  | .protoMember => generateTextCont prov st id a model none false
  | .info mi => generateTextCont prov st id a model (some mi.features) mi.thinking

/-- The generate_text tool handler.  Its try/catch makes it total: every
internal throw (the args.model access on an undefined or null arguments
value, an unknown model, the grounding includes access on a prototype
member, toUpperCase on a bad thinking level, a provider failure) becomes
an isError result payload carrying the Error message, never an RPC error
and never a propagated exception. -/
def generateText (prov : Provider) (dm : String) (st : ServerState)
    (id : Option Json) (args : Option Json) : ToolOut :=
  match args with
  | none =>
    errToolOut st id "Error: Cannot read properties of undefined (reading \x27model\x27)"
      ["Error in generateText:"] []
  | some .null =>
    errToolOut st id "Error: Cannot read properties of null (reading \x27model\x27)"
      ["Error in generateText:"] []
  | some a => generateTextBody prov dm st id a

-- analyze_image -----------------------------------------------------------

/-- Absence of JavaScript line terminators, which the regex dot cannot
match. -/
def lineTermFree (s : String) : Bool :=
  s.data.all (fun c => !(c == '\n' || c == '\r' || c == Char.ofNat 0x2028 || c == Char.ofNat 0x2029))

/-- Splitting a character list on every occurrence of a nonempty
separator, scanning left to right (the semantics of String.splitOn,
implemented structurally over the characters; the fuel is any bound above
the input length). -/
def splitOnChars (sep : List Char) : Nat → List Char → List Char → List (List Char)
  | 0, acc, rest => [acc.reverse ++ rest]
  | _ + 1, acc, [] => [acc.reverse]
  | fuel + 1, acc, c :: cs =>
    if sep.isPrefixOf (c :: cs) then
      acc.reverse :: splitOnChars sep fuel [] ((c :: cs).drop sep.length)
    else
      splitOnChars sep fuel (c :: acc) cs

/-- The separator-joined concatenation of split pieces. -/
def joinSep (sep : List Char) : List (List Char) → List Char
  | [] => []
  | [x] => x
  | x :: y :: xs => x ++ sep ++ joinSep sep (y :: xs)

/-- Greedy choice of the split point for the data-URI regex: prefer the
latest separator occurrence whose right side is nonempty, backtracking
leftwards otherwise (the argument pieces are the splitOnChars parts). -/
def dataUriSplit (sep : List Char) : List (List Char) → Option (List Char × List Char)
  | [] => none
  | [_] => none
  | p :: q :: rest =>
    match dataUriSplit sep (q :: rest) with
    | some (m, d) => some (p ++ sep ++ m, d)
    | none =>
      let d := joinSep sep (q :: rest)
      if d.isEmpty then none else some (p, d)

/-- The match of imageBase64 against the anchored regex
data:(.+);base64,(.+) with greedy groups (dot excludes line
terminators). -/
def matchDataUri (s : String) : Option (String × String) :=
  if !lineTermFree s then none
  else if !(("data:".data).isPrefixOf s.data) then none
  else
    match dataUriSplit (";base64,".data)
        (splitOnChars (";base64,".data) (s.data.length + 1) [] (s.data.drop 5)) with
    | some (m, d) => if m.isEmpty then none else some (String.mk m, String.mk d)
    | none => none

/-- The image part construction of analyzeImage: a text part naming the
URL, or inline data parsed from a data URI (falling back to raw base64
with an assumed JPEG mime type).  Calling .match on a truthy non-string
imageBase64 throws.  The unreachable branch where neither input survived
validation leaves the part undefined, modelled as null. -/
def buildImagePart (a : Json) : Except Exn (Json × List String) :=
  if truthyO (getProp a "imageUrl") then
    .ok (.obj [("text", .str ("[Image URL: " ++ jsToStringO (getProp a "imageUrl") ++ "]"))], [])
  else if truthyO (getProp a "imageBase64") then
    match getProp a "imageBase64" with
    | some (.str s) =>
      let l0 := "Image base64 length: " ++ natLit s.length
      match matchDataUri s with
      | some (mime, d) =>
        .ok (.obj [("inlineData", .obj [("mimeType", .str mime), ("data", .str d)])],
             [l0, "MIME type: " ++ mime ++ ", Data length: " ++ natLit d.length])
      | none =>
        .ok (.obj [("inlineData", .obj [("mimeType", .str "image/jpeg"), ("data", .str s)])],
             [l0, "Raw base64 data detected"])
    | _ => .error (.jsError "args.imageBase64.match is not a function")
  else
    .ok (.null, [])

/-- The analyze_image try-block body given a non-null arguments value.
Validation: it throws (caught into an isError payload) exactly when
neither imageUrl nor imageBase64 is truthy; when both are supplied the
imageUrl branch wins and no error occurs. -/
def analyzeImageBody (prov : Provider) (dm : String) (st : ServerState)
    (id : Option Json) (a : Json) : ToolOut :=
    let model := jsOr (getProp a "model") (.str dm)
    if !truthyO (getProp a "imageUrl") && !truthyO (getProp a "imageBase64") then
      errToolOut st id "Image analysis failed: Either imageUrl or imageBase64 must be provided"
        ["Error in analyzeImage:"] []
    else
      match buildImagePart a with
      | .error e =>
        errToolOut st id ("Image analysis failed: " ++ exnMessage e "Unknown error")
          ["Error in analyzeImage:"] []
      | .ok (imagePart, logs) =>
        let contents := [Json.obj [("parts", .arr [mkTextPart (getProp a "prompt"), imagePart]),
                                   ("role", .str "user")]]
        let config := if truthyO (getProp a "mediaResolution") then
            some (Json.obj (optField "mediaResolution" (getProp a "mediaResolution")))
          else none
        match prov.generateContent model contents config with
        | .error e =>
          { state := st
            resp := toolErrorResp id ("Image analysis failed: " ++ exnMessage e "Unknown error")
            errLog := logs ++ ["Error in analyzeImage:"]
            calls := [.generateContent model contents config] }
        | .ok res =>
          let text := jsOr (getProp res "text") (.str "")
          { state := st
            resp := { id := id
                      result := some (Json.obj [("content", .arr [textContent text])])
                      error := none }
            errLog := logs
            calls := [.generateContent model contents config] }

/-- The analyze_image tool handler: the first property access args.model
throws (caught into an isError payload) when the arguments value is
undefined or null; otherwise the body runs. -/
def analyzeImage (prov : Provider) (dm : String) (st : ServerState)
    (id : Option Json) (args : Option Json) : ToolOut :=
  match args with
  | none =>
    errToolOut st id "Image analysis failed: Cannot read properties of undefined (reading \x27model\x27)"
      ["Error in analyzeImage:"] []
  | some .null =>
    errToolOut st id "Image analysis failed: Cannot read properties of null (reading \x27model\x27)"
      ["Error in analyzeImage:"] []
  | some a => analyzeImageBody prov dm st id a

-- count_tokens ------------------------------------------------------------

/-- The count_tokens try-block body given a non-null arguments value. -/
def countTokensBody (prov : Provider) (dm : String) (st : ServerState)
    (id : Option Json) (a : Json) : ToolOut :=
    let model := jsOr (getProp a "model") (.str dm)
    let contents := [mkTurn (getProp a "text") "user"]
    match prov.countTokens model contents with
    | .error e =>
      { state := st
        resp := toolErrorResp id ("Token counting failed: " ++ exnMessage e "Internal error")
        errLog := ["Error in countTokens:"]
        calls := [.countTokens model contents] }
    | .ok res =>
      let total := getProp res "totalTokens"
      { state := st
        resp := { id := id
                  result := some (Json.obj
                    [("content", .arr [textContent (.str ("Token count: " ++ jsToStringO total))]),
                     ("metadata", .obj (optField "tokenCount" total ++ [("model", model)]))])
                  error := none }
        errLog := []
        calls := [.countTokens model contents] }

/-- The count_tokens tool handler: the args.model access throws (caught
into an isError payload) when the arguments value is undefined or null;
otherwise the body runs. -/
def countTokens (prov : Provider) (dm : String) (st : ServerState)
    (id : Option Json) (args : Option Json) : ToolOut :=
  match args with
  | none =>
    errToolOut st id "Token counting failed: Cannot read properties of undefined (reading \x27model\x27)"
      ["Error in countTokens:"] []
  | some .null =>
    errToolOut st id "Token counting failed: Cannot read properties of null (reading \x27model\x27)"
      ["Error in countTokens:"] []
  | some a => countTokensBody prov dm st id a

-- embed_text --------------------------------------------------------------

/-- The embed_text try-block body given a non-null arguments value (its
default model is the hard-coded embedding model, independent of
DEFAULT_MODEL). -/
def embedTextBody (prov : Provider) (st : ServerState)
    (id : Option Json) (a : Json) : ToolOut :=
    let model := jsOr (getProp a "model") (.str "gemini-embedding-001")
    let textArg := getProp a "text"
    match prov.embedContent model textArg with
    | .error e =>
      { state := st
        resp := toolErrorResp id ("Embedding failed: " ++ exnMessage e "Internal error")
        errLog := ["Error in embedText:"]
        calls := [.embedContent model textArg] }
    | .ok res =>
      let values := optChain (optIndex0 (getProp res "embeddings")) "values"
      let emb := jsOr values (.arr [])
      { state := st
        resp := { id := id
                  result := some (Json.obj
                    [("content", .arr [textContent (.str (Json.serialize (.obj [("embedding", emb), ("model", model)])))]),
                     ("metadata", .obj [("model", model),
                       ("dimensions", jsOr (optLength values) (.num 0))])])
                  error := none }
        errLog := []
        calls := [.embedContent model textArg] }

/-- The embed_text tool handler: the args.model access throws (caught into
an isError payload) when the arguments value is undefined or null;
otherwise the body runs. -/
def embedText (prov : Provider) (st : ServerState)
    (id : Option Json) (args : Option Json) : ToolOut :=
  match args with
  | none =>
    errToolOut st id "Embedding failed: Cannot read properties of undefined (reading \x27model\x27)"
      ["Error in embedText:"] []
  | some .null =>
    errToolOut st id "Embedding failed: Cannot read properties of null (reading \x27model\x27)"
      ["Error in embedText:"] []
  | some a => embedTextBody prov st id a

-- list_models -------------------------------------------------------------

/-- The JSON rendering of one GEMINI_MODELS entry, fields in the literal
order (maxOutputTokens and thinkingLevels only where declared). -/
def modelInfoFields (i : ModelInfo) : List (String × Json) :=
  [("description", .str i.description),
   ("features", .arr (i.features.map Json.str)),
   ("contextWindow", .num (i.contextWindow : Rat))] ++
  (match i.maxOutputTokens with
   | some n => [("maxOutputTokens", Json.num (n : Rat))]
   | none => []) ++
  [("thinking", .bool i.thinking)] ++
  (match i.thinkingLevels with
   | some ls => [("thinkingLevels", Json.arr (ls.map Json.str))]
   | none => [])

/-- The filter predicate of listModels: the vision case tests the
function_calling feature (the source comments that all current models
support vision), unknown filter values keep everything. -/
def filterKeep (filter : Json) (i : ModelInfo) : Bool :=
  if jeq filter (.str "thinking") then i.thinking
  else if jeq filter (.str "vision") then i.features.contains "function_calling"
  else if jeq filter (.str "grounding") then i.features.contains "grounding"
  else if jeq filter (.str "json_mode") then i.features.contains "json_mode"
  else true

/-- The list_models tool handler (pure: reads no state, makes no provider
call). -/
def listModels (id : Option Json) (args : Option Json) : MCPResponse :=
  let filter := jsOr (optChain args "filter") (.str "all")
  let models := if jeq filter (.str "all") then GEMINI_MODELS
    else GEMINI_MODELS.filter (fun m => filterKeep filter m.2)
  let modelList := models.map (fun m => Json.obj (("name", Json.str m.1) :: modelInfoFields m.2))
  { id := id
    result := some (.obj
      [("content", .arr [textContent (.str (prettyStringify (.arr modelList)))]),
       ("metadata", .obj [("count", .num (modelList.length : Rat)), ("filter", filter)])])
    error := none }

-- get_help ----------------------------------------------------------------

/-- The static help documents of getHelpContent.  The multi-page bodies
are abbreviated to their opening heading: they are fixed template text
whose contents no claim inspects; the switch structure and the default
string are kept exactly. -/
def getHelpContent (topic : String) : String :=
  if topic = "overview" then "# Gemini MCP Server Help"
  else if topic = "tools" then "# Available Tools"
  else if topic = "parameters" then "# Parameter Reference"
  else if topic = "examples" then "# Usage Examples"
  else "Unknown help topic."

/-- The get_help tool handler (pure). -/
def getHelp (id : Option Json) (args : Option Json) : MCPResponse :=
  let topic := jsOr (optChain args "topic") (.str "overview")
  let helpContent :=
    if jeq topic (.str "overview") then getHelpContent "overview"
    else if jeq topic (.str "tools") then getHelpContent "tools"
    else if jeq topic (.str "models") then "# Available Gemini Models"
    else if jeq topic (.str "parameters") then getHelpContent "parameters"
    else if jeq topic (.str "examples") then getHelpContent "examples"
    else if jeq topic (.str "quick-start") then "# Quick Start Guide"
    else "Unknown help topic. Available topics: overview, tools, models, parameters, examples, quick-start"
  { id := id
    result := some (.obj [("content", .arr [textContent (.str helpContent)])])
    error := none }

-- resources/read ----------------------------------------------------------

/-- The GEMINI_MODELS object as JSON, for the gemini://models resource. -/
def geminiModelsJson : Json :=
  .obj (GEMINI_MODELS.map (fun m => (m.1, Json.obj (modelInfoFields m.2))))

def resourceResult (reqId : Option Json) (u : Json) (mime : String) (content : String) : MCPResponse :=
  { id := reqId
    result := some (.obj [("contents", .arr
      [.obj [("uri", u), ("mimeType", .str mime), ("text", .str content)]])])
    error := none }

/-- The resources/read handler.  A falsy uri is a protocol error; an
unmatched uri is a protocol error naming the uri; the capabilities
markdown body is abbreviated to its heading (static template text). -/
def handleResourceRead (req : Json) : MCPResponse :=
  let reqId := getProp req "id"
  let uri := optChain (getProp req "params") "uri"
  if !truthyO uri then
    { id := reqId, result := none, error := some ⟨-32602, "Missing required parameter: uri"⟩ }
  else
    let u := uri.getD .null
    if jeq u (.str "gemini://models") then
      resourceResult reqId u "application/json" (prettyStringify geminiModelsJson)
    else if jeq u (.str "gemini://capabilities") then
      resourceResult reqId u "text/markdown" "# Gemini API Capabilities"
    else if jeq u (.str "gemini://help/usage") then
      resourceResult reqId u "text/markdown" (getHelpContent "overview" ++ "\n\n" ++ getHelpContent "tools")
    else if jeq u (.str "gemini://help/parameters") then
      resourceResult reqId u "text/markdown" (getHelpContent "parameters")
    else if jeq u (.str "gemini://help/examples") then
      resourceResult reqId u "text/markdown" (getHelpContent "examples")
    else
      { id := reqId, result := none
        error := some ⟨-32602, "Unknown resource: " ++ jsToString u⟩ }

-- Capability registry -----------------------------------------------------

/-- The six tool descriptors of getAvailableTools, with their full input
schemas (the model enum is Object.keys(GEMINI_MODELS) and the default
model is the start-up DEFAULT_MODEL). -/
def getAvailableTools (dm : String) : List Json :=
  [ .obj [("name", .str "generate_text"),
      ("description", .str "Generate text using Google Gemini with advanced features"),
      ("inputSchema", .obj [("type", .str "object"),
        ("properties", .obj
          [("prompt", .obj [("type", .str "string"),
             ("description", .str "The prompt to send to Gemini")]),
           ("model", .obj [("type", .str "string"),
             ("description", .str "Specific Gemini model to use"),
             ("enum", .arr (modelNames.map Json.str)),
             ("default", .str dm)]),
           ("systemInstruction", .obj [("type", .str "string"),
             ("description", .str "System instruction to guide model behavior")]),
           ("temperature", .obj [("type", .str "number"),
             ("description", .str "Temperature for generation (0-2)"),
             ("default", .num 1), ("minimum", .num 0), ("maximum", .num 2)]),
           ("maxTokens", .obj [("type", .str "number"),
             ("description", .str "Maximum tokens to generate"),
             ("default", .num 2048)]),
           ("topK", .obj [("type", .str "number"),
             ("description", .str "Top-k sampling parameter"),
             ("default", .num 40)]),
           ("topP", .obj [("type", .str "number"),
             ("description", .str "Top-p (nucleus) sampling parameter"),
             ("default", .num (19/20))]),
           ("jsonMode", .obj [("type", .str "boolean"),
             ("description", .str "Enable JSON mode for structured output"),
             ("default", .bool false)]),
           ("jsonSchema", .obj [("type", .str "object"),
             ("description", .str "JSON schema for structured output (when jsonMode is true)")]),
           ("grounding", .obj [("type", .str "boolean"),
             ("description", .str "Enable Google Search grounding for up-to-date information"),
             ("default", .bool false)]),
           ("safetySettings", .obj [("type", .str "array"),
             ("description", .str "Safety settings for content filtering"),
             ("items", .obj [("type", .str "object"),
               ("properties", .obj
                 [("category", .obj [("type", .str "string"),
                    ("enum", .arr [.str "HARM_CATEGORY_HARASSMENT", .str "HARM_CATEGORY_HATE_SPEECH",
                      .str "HARM_CATEGORY_SEXUALLY_EXPLICIT", .str "HARM_CATEGORY_DANGEROUS_CONTENT"])]),
                  ("threshold", .obj [("type", .str "string"),
                    ("enum", .arr [.str "BLOCK_NONE", .str "BLOCK_ONLY_HIGH",
                      .str "BLOCK_MEDIUM_AND_ABOVE", .str "BLOCK_LOW_AND_ABOVE"])])])])]),
           ("conversationId", .obj [("type", .str "string"),
             ("description", .str "ID for maintaining conversation context")]),
           ("thinkingLevel", .obj [("type", .str "string"),
             ("description", .str "Thinking depth for Gemini 3 models. Pro supports low/high; Flash supports minimal/low/medium/high."),
             ("enum", .arr [.str "minimal", .str "low", .str "medium", .str "high"])])]),
        ("required", .arr [.str "prompt"])])],
    .obj [("name", .str "analyze_image"),
      ("description", .str "Analyze images using Gemini vision capabilities"),
      ("inputSchema", .obj [("type", .str "object"),
        ("properties", .obj
          [("prompt", .obj [("type", .str "string"),
             ("description", .str "Question or instruction about the image")]),
           ("imageUrl", .obj [("type", .str "string"),
             ("description", .str "URL of the image to analyze. Either imageUrl or imageBase64 must be provided.")]),
           ("imageBase64", .obj [("type", .str "string"),
             ("description", .str "Base64-encoded image data. Either imageUrl or imageBase64 must be provided.")]),
           ("model", .obj [("type", .str "string"),
             ("description", .str "Vision-capable Gemini model"),
             ("enum", .arr [.str "gemini-3-pro-preview", .str "gemini-3-flash-preview",
               .str "gemini-2.5-pro", .str "gemini-2.5-flash"]),
             ("default", .str dm)]),
           ("mediaResolution", .obj [("type", .str "string"),
             ("description", .str "Token allocation for image/video inputs. Higher resolution uses more tokens but provides better detail."),
             ("enum", .arr [.str "media_resolution_low", .str "media_resolution_medium", .str "media_resolution_high"])])]),
        ("required", .arr [.str "prompt"])])],
    .obj [("name", .str "count_tokens"),
      ("description", .str "Count tokens for a given text with a specific model"),
      ("inputSchema", .obj [("type", .str "object"),
        ("properties", .obj
          [("text", .obj [("type", .str "string"),
             ("description", .str "Text to count tokens for")]),
           ("model", .obj [("type", .str "string"),
             ("description", .str "Model to use for token counting"),
             ("enum", .arr (modelNames.map Json.str)),
             ("default", .str dm)])]),
        ("required", .arr [.str "text"])])],
    .obj [("name", .str "list_models"),
      ("description", .str "List all available Gemini models and their capabilities"),
      ("inputSchema", .obj [("type", .str "object"),
        ("properties", .obj
          [("filter", .obj [("type", .str "string"),
             ("description", .str "Filter models by capability"),
             ("enum", .arr [.str "all", .str "thinking", .str "vision", .str "grounding", .str "json_mode"])])])])],
    .obj [("name", .str "embed_text"),
      ("description", .str "Generate embeddings for text using Gemini embedding models"),
      ("inputSchema", .obj [("type", .str "object"),
        ("properties", .obj
          [("text", .obj [("type", .str "string"),
             ("description", .str "Text to generate embeddings for")]),
           ("model", .obj [("type", .str "string"),
             ("description", .str "Embedding model to use"),
             ("enum", .arr [.str "gemini-embedding-001"]),
             ("default", .str "gemini-embedding-001")])]),
        ("required", .arr [.str "text"])])],
    .obj [("name", .str "get_help"),
      ("description", .str "Get help and usage information for the Gemini MCP server"),
      ("inputSchema", .obj [("type", .str "object"),
        ("properties", .obj
          [("topic", .obj [("type", .str "string"),
             ("description", .str "Help topic to get information about"),
             ("enum", .arr [.str "overview", .str "tools", .str "models", .str "parameters",
               .str "examples", .str "quick-start"]),
             ("default", .str "overview")])])])] ]

/-- The five resource descriptors of getAvailableResources. -/
def getAvailableResources : List Json :=
  [ .obj [("uri", .str "gemini://models"), ("name", .str "Available Gemini Models"),
      ("description", .str "List of all available Gemini models and their capabilities"),
      ("mimeType", .str "application/json")],
    .obj [("uri", .str "gemini://capabilities"), ("name", .str "API Capabilities"),
      ("description", .str "Detailed information about Gemini API capabilities"),
      ("mimeType", .str "text/markdown")],
    .obj [("uri", .str "gemini://help/usage"), ("name", .str "Usage Guide"),
      ("description", .str "Complete guide on using all tools and features"),
      ("mimeType", .str "text/markdown")],
    .obj [("uri", .str "gemini://help/parameters"), ("name", .str "Parameters Reference"),
      ("description", .str "Detailed documentation of all parameters"),
      ("mimeType", .str "text/markdown")],
    .obj [("uri", .str "gemini://help/examples"), ("name", .str "Examples"),
      ("description", .str "Example usage patterns for common tasks"),
      ("mimeType", .str "text/markdown")] ]

/-- The three prompt descriptors of getAvailablePrompts. -/
def getAvailablePrompts : List Json :=
  [ .obj [("name", .str "code_review"),
      ("description", .str "Comprehensive code review with Gemini 3 Pro"),
      ("arguments", .arr
        [.obj [("name", .str "code"), ("description", .str "Code to review"), ("required", .bool true)],
         .obj [("name", .str "language"), ("description", .str "Programming language"), ("required", .bool false)]])],
    .obj [("name", .str "explain_with_thinking"),
      ("description", .str "Deep explanation using Gemini 3 thinking capabilities"),
      ("arguments", .arr
        [.obj [("name", .str "topic"), ("description", .str "Topic to explain"), ("required", .bool true)],
         .obj [("name", .str "level"), ("description", .str "Explanation level (beginner/intermediate/expert)"), ("required", .bool false)]])],
    .obj [("name", .str "creative_writing"),
      ("description", .str "Creative writing with style control"),
      ("arguments", .arr
        [.obj [("name", .str "prompt"), ("description", .str "Writing prompt"), ("required", .bool true)],
         .obj [("name", .str "style"), ("description", .str "Writing style"), ("required", .bool false)],
         .obj [("name", .str "length"), ("description", .str "Desired length"), ("required", .bool false)]])] ]

-- Tool dispatch -----------------------------------------------------------

/-- Strict equality of a possibly-undefined value with a string literal,
as in a switch case or a === comparison. -/
def isStr (o : Option Json) (s : String) : Bool :=
  match o with
  | some (.str t) => t == s
  | _ => false

/-- The tools/call dispatcher: destructure request.params || an empty
object, switch on the exact tool name (strict string equality), and fall
through to the invalid-params unknown-tool error. -/
def handleToolCall (prov : Provider) (dm : String) (st : ServerState) (req : Json) : ToolOut :=
  let params := jsOr (getProp req "params") (.obj [])
  let name := getProp params "name"
  let args := getProp params "arguments"
  let reqId := getProp req "id"
  if isStr name "generate_text" then generateText prov dm st reqId args
  else if isStr name "analyze_image" then analyzeImage prov dm st reqId args
  else if isStr name "count_tokens" then countTokens prov dm st reqId args
  else if isStr name "list_models" then
    { state := st, resp := listModels reqId args, errLog := [], calls := [] }
  else if isStr name "embed_text" then embedText prov st reqId args
  else if isStr name "get_help" then
    { state := st, resp := getHelp reqId args, errLog := [], calls := [] }
  else
    { state := st
      resp := { id := reqId, result := none
                error := some ⟨-32602, "Unknown tool: " ++ jsToStringO name⟩ }
      errLog := [], calls := [] }

-- Request router ----------------------------------------------------------

/-- Property access request.k at a site where request may be any parsed
JSON value: throws a TypeError exactly when the value is null (undefined
cannot arise from JSON.parse). -/
def jsGetPropE (j : Json) (k : String) : Except Exn (Option Json) :=
  match j with
  | .null => .error (.jsError ("Cannot read properties of null (reading \x27" ++ k ++ "\x27)"))
  | .obj fs => .ok (lookupLast fs k)
  | _ => .ok none

/-- The JavaScript in operator, k in j: key test on objects, index test on
arrays (no string key is an index), and a TypeError on primitives. -/
def jsInE (k : String) (j : Json) : Except Exn Bool :=
  match j with
  | .obj fs => .ok (containsKey fs k)
  | .arr _ => .ok false
  | _ => .error (.jsError ("Cannot use \x27in\x27 operator to search for \x27" ++ k ++ "\x27 in " ++ jsToString j))

/-- What the body of handleRequest produced: the state after the matched
handler, the response to send (none on the notification return path),
diagnostic lines and provider calls. -/
structure BodyOut where
  state : ServerState
  resp : Option MCPResponse
  errLog : List String
  calls : List ProviderCall

def initializeResult : Json :=
  .obj [("protocolVersion", .str "2024-11-05"),
        ("serverInfo", .obj [("name", .str "mcp-server-gemini-enhanced"), ("version", .str "0.5.1")]),
        ("capabilities", .obj [("tools", .obj []), ("resources", .obj []), ("prompts", .obj [])])]

/-- The try-block of handleRequest: the switch over the seven known
methods, and the default branch that distinguishes notifications (no id
member: log and return nothing) from unknown methods (method-not-found
error).  The only throwing site is the in-operator on a primitive
request. -/
def handleRequestBody (prov : Provider) (dm : String) (st : ServerState) (req : Json) :
    Except Exn BodyOut :=
  let m := getProp req "method"
  let reqId := getProp req "id"
  if isStr m "initialize" then
    .ok ⟨st, some { id := reqId, result := some initializeResult, error := none }, [], []⟩
  else if isStr m "tools/list" then
    .ok ⟨st, some { id := reqId, result := some (.obj [("tools", .arr (getAvailableTools dm))]),
                    error := none }, [], []⟩
  else if isStr m "tools/call" then
    let o := handleToolCall prov dm st req
    .ok ⟨o.state, some o.resp, o.errLog, o.calls⟩
  else if isStr m "resources/list" then
    .ok ⟨st, some { id := reqId, result := some (.obj [("resources", .arr getAvailableResources)]),
                    error := none }, [], []⟩
  else if isStr m "resources/read" then
    .ok ⟨st, some (handleResourceRead req), [], []⟩
  else if isStr m "prompts/list" then
    .ok ⟨st, some { id := reqId, result := some (.obj [("prompts", .arr getAvailablePrompts)]),
                    error := none }, [], []⟩
  else if isStr m "ping" then
    .ok ⟨st, some { id := reqId, result := some (.obj []), error := none }, [], []⟩
  else
    match jsInE "id" req with
    | .error e => .error e
    | .ok false => .ok ⟨st, none, ["Notification received: " ++ jsToStringO m], []⟩
    | .ok true =>
      .ok ⟨st, some { id := reqId, result := none
                      error := some ⟨-32601, "Method not found"⟩ }, [], []⟩

/-- What one dispatched request produced on each channel. -/
structure RouterOut where
  state : ServerState
  responses : List MCPResponse
  errLog : List String
  calls : List ProviderCall

/-- The async handleRequest method.  The entry log accesses request.method
before the try-block: for a null request that access throws outside the
catch and the whole call is an Except.error (an unhandled promise
rejection).  Inside, the catch converts any throw from the body into a
single internal-error response with code -32603 echoing request.id. -/
def handleRequest (prov : Provider) (dm : String) (st : ServerState) (req : Json) :
    Except Exn RouterOut :=
  match jsGetPropE req "method" with
  | .error e => .error e
  | .ok m =>
    let l0 := "Handling request: " ++ jsToStringO m
    match handleRequestBody prov dm st req with
    | .ok b => .ok ⟨b.state, b.resp.toList, l0 :: b.errLog, b.calls⟩
    | .error e =>
      .ok ⟨st, [{ id := getProp req "id", result := none
                  error := some ⟨-32603, exnMessage e "Internal error"⟩ }], [l0], []⟩

-- Line framing ------------------------------------------------------------

/-- What processing one input line produced: stdout receives only the
encoded response lines; every diagnostic goes to the stderr list.  A
crash records the exception of an unhandled rejection (reachable only for
the JSON value null, whose entry log throws outside every catch). -/
structure LineOut where
  state : ServerState
  stdout : List String
  stderr : List String
  calls : List ProviderCall
  crashed : Option Exn

/-- The guard if (line.trim()): the trimmed line is falsy (the empty
string) exactly when every character of the line is whitespace. -/
def isBlankLine (line : String) : Bool :=
  line.data.all Char.isWhitespace

/-- The line event handler: a line that is only whitespace is dropped
silently; a line JSON.parse rejects (the parse oracle returning none) is
logged to the diagnostic channel and gets no response; otherwise the
parsed value is dispatched to handleRequest and each produced response is
encoded by sendResponse onto the output channel. -/
def onLine (parse : String → Option Json) (prov : Provider) (dm : String)
    (st : ServerState) (line : String) : LineOut :=
  if isBlankLine line then ⟨st, [], [], [], none⟩
  else
    match parse line with
    | none => ⟨st, [], ["Failed to parse message:"], [], none⟩
    | some req =>
      match handleRequest prov dm st req with
      | .ok o => ⟨o.state, o.responses.map sendResponse, o.errLog, o.calls, none⟩
      | .error e => ⟨st, [], [], [], some e⟩

/-- Accumulated processing of a sequence of input lines, stopping at a
crash. -/
def processLines (parse : String → Option Json) (prov : Provider) (dm : String) :
    ServerState → List String → LineOut
  | st, [] => ⟨st, [], [], [], none⟩
  | st, l :: ls =>
    let o := onLine parse prov dm st l
    match o.crashed with
    | some e => ⟨o.state, o.stdout, o.stderr, o.calls, some e⟩
    | none =>
      let rest := processLines parse prov dm o.state ls
      ⟨rest.state, o.stdout ++ rest.stdout, o.stderr ++ rest.stderr,
       o.calls ++ rest.calls, rest.crashed⟩

-- Concrete fixtures used by witnesses and counterexamples -----------------

/-- A provider whose every operation fails with a network error. -/
def failProvider : Provider :=
  { generateContent := fun _ _ _ => .error (.jsError "network failure")
    countTokens := fun _ _ => .error (.jsError "network failure")
    embedContent := fun _ _ => .error (.jsError "network failure") }

/-- A provider whose every operation succeeds with a minimal result
object. -/
def okProvider : Provider :=
  { generateContent := fun _ _ _ => .ok (.obj [("text", .str "ok-reply")])
    countTokens := fun _ _ => .ok (.obj [("totalTokens", .num 7)])
    embedContent := fun _ _ => .ok (.obj [("embeddings", .arr [.obj [("values", .arr [.num 1, .num 2])]])]) }

/-- The empty start-up state. -/
def st0 : ServerState := ⟨[]⟩

/-- The hard-coded fallback default model. -/
def dm0 : String := "gemini-3-pro-preview"

/-- Line-break characters for the framing claims. -/
def isLineBreak (c : Char) : Bool :=
  c == '\n' || c == '\r'

/-- Number of line-break characters in a string. -/
def lbCount (s : String) : Nat :=
  (s.data.filter isLineBreak).length

/-- The six registered tool names, in dispatch order. -/
def toolNames : List String :=
  ["generate_text", "analyze_image", "count_tokens", "list_models", "embed_text", "get_help"]

-- Helper lemmas -----------------------------------------------------------

theorem data_append (a b : String) : (a ++ b).data = a.data ++ b.data := by
  cases a; cases b; rfl

theorem lbCount_append (a b : String) : lbCount (a ++ b) = lbCount a + lbCount b := by
  simp [lbCount, data_append, List.filter_append]

theorem hexDigit_not_lb (n : Nat) : isLineBreak (hexDigit n) = false := by
  unfold hexDigit
  have h : n % 16 < 16 := Nat.mod_lt _ (by norm_num)
  revert h
  generalize n % 16 = k
  intro h
  interval_cases k <;> decide

theorem digitChar_not_lb (n : Nat) : isLineBreak (digitChar n) = false := by
  unfold digitChar
  by_cases h : n < 10
  · revert h
    generalize n = k
    intro h
    interval_cases k <;> decide
  · rw [List.getD_eq_default _ _ (by simpa using Nat.le_of_not_lt h)]
    decide

theorem lbCount_mk_eq_zero (l : List Char) (h : ∀ c ∈ l, isLineBreak c = false) :
    lbCount (String.mk l) = 0 := by
  simp only [lbCount, List.length_eq_zero, List.filter_eq_nil_iff]
  intro c hc
  simp [h c hc]

theorem escChar_lbCount (c : Char) : lbCount (escChar c) = 0 := by
  unfold escChar
  split_ifs with h1 h2 h3 h4 h5 h6 h7 h8
  · decide
  · decide
  · decide
  · decide
  · decide
  · decide
  · decide
  · rw [lbCount_append]
    have : lbCount (String.mk [hexDigit (c.toNat / 16), hexDigit (c.toNat % 16)]) = 0 := by
      apply lbCount_mk_eq_zero
      intro d hd
      simp only [List.mem_cons, List.mem_singleton] at hd
      rcases hd with h | h | h
      · rw [h]; exact hexDigit_not_lb _
      · rw [h]; exact hexDigit_not_lb _
      · cases h
    rw [this]
    decide
  · apply lbCount_mk_eq_zero
    intro d hd
    simp only [List.mem_singleton] at hd
    subst hd
    have hn : d ≠ '\n' := by
      intro e
      exact h8 (by rw [e]; decide)
    have hr : d ≠ '\r' := by
      intro e
      exact h8 (by rw [e]; decide)
    simp [isLineBreak, hn, hr]

theorem escapeString_lbCount (s : String) : lbCount (escapeString s) = 0 := by
  unfold escapeString
  induction s.data with
  | nil => decide
  | cons c cs ih =>
    simp only [List.foldr_cons]
    rw [lbCount_append, escChar_lbCount, ih]

theorem quoteStr_lbCount (s : String) : lbCount (quoteStr s) = 0 := by
  unfold quoteStr
  rw [lbCount_append, lbCount_append, escapeString_lbCount]
  decide

theorem natCharsAux_not_lb (fuel n : Nat) : ∀ c ∈ natCharsAux fuel n, isLineBreak c = false := by
  induction fuel generalizing n with
  | zero => intro c hc; cases hc
  | succ f ih =>
    intro c hc
    unfold natCharsAux at hc
    split at hc
    · simp only [List.mem_singleton] at hc
      rw [hc]; exact digitChar_not_lb _
    · rw [List.mem_append] at hc
      rcases hc with h | h
      · exact ih _ c h
      · simp only [List.mem_singleton] at h
        rw [h]; exact digitChar_not_lb _

theorem natLit_lbCount (n : Nat) : lbCount (natLit n) = 0 := by
  unfold natLit
  exact lbCount_mk_eq_zero _ (natCharsAux_not_lb _ _)

theorem intLit_lbCount (i : Int) : lbCount (intLit i) = 0 := by
  unfold intLit
  split
  · rw [lbCount_append, natLit_lbCount]; decide
  · exact natLit_lbCount _

theorem numLit_lbCount (q : Rat) : lbCount (numLit q) = 0 := by
  unfold numLit
  split
  · exact intLit_lbCount _
  · rw [lbCount_append, lbCount_append, intLit_lbCount, natLit_lbCount]; decide

mutual

theorem serialize_lbCount : ∀ j : Json, lbCount j.serialize = 0
  | .null => by decide
  | .bool b => by cases b <;> decide
  | .num q => by
      rw [show (Json.num q).serialize = numLit q from rfl]
      exact numLit_lbCount q
  | .str s => by
      rw [show (Json.str s).serialize = quoteStr s from rfl]
      exact quoteStr_lbCount s
  | .arr xs => by
      rw [show (Json.arr xs).serialize = "[" ++ serializeItems xs ++ "]" from rfl,
        lbCount_append, lbCount_append, serializeItems_lbCount xs]
      decide
  | .obj fs => by
      rw [show (Json.obj fs).serialize = "\x7b" ++ serializeFields fs ++ "\x7d" from rfl,
        lbCount_append, lbCount_append, serializeFields_lbCount fs]
      decide

theorem serializeItems_lbCount : ∀ xs : List Json, lbCount (serializeItems xs) = 0
  | [] => by decide
  | [x] => by
      rw [show serializeItems [x] = x.serialize from rfl]
      exact serialize_lbCount x
  | x :: y :: xs => by
      rw [show serializeItems (x :: y :: xs) = x.serialize ++ "," ++ serializeItems (y :: xs) from rfl,
        lbCount_append, lbCount_append, serialize_lbCount x, serializeItems_lbCount (y :: xs)]
      decide

theorem serializeFields_lbCount : ∀ fs : List (String × Json), lbCount (serializeFields fs) = 0
  | [] => by decide
  | [(k, v)] => by
      rw [show serializeFields [(k, v)] = quoteStr k ++ ":" ++ v.serialize from rfl,
        lbCount_append, lbCount_append, quoteStr_lbCount k, serialize_lbCount v]
      decide
  | (k, v) :: f :: fs => by
      rw [show serializeFields ((k, v) :: f :: fs) =
            quoteStr k ++ ":" ++ v.serialize ++ "," ++ serializeFields (f :: fs) from rfl,
        lbCount_append, lbCount_append, lbCount_append, lbCount_append,
        quoteStr_lbCount k, serialize_lbCount v, serializeFields_lbCount (f :: fs)]
      decide

end

/-- The encoded bytes of any response contain exactly the one terminating
newline. -/
theorem sendResponse_lbCount (r : MCPResponse) : lbCount (sendResponse r) = 1 := by
  unfold sendResponse
  rw [lbCount_append, serialize_lbCount]
  decide

theorem sendResponse_last (r : MCPResponse) : (sendResponse r).data.getLast? = some '\n' := by
  unfold sendResponse
  rw [data_append]
  exact List.getLast?_concat _

mutual

theorem jeq_refl : ∀ a : Json, jeq a a = true
  | .null => rfl
  | .bool a => by simp [jeq]
  | .num a => by simp [jeq]
  | .str a => by simp [jeq]
  | .arr a => by rw [show jeq (.arr a) (.arr a) = jeqL a a from rfl]; exact jeqL_refl a
  | .obj a => by rw [show jeq (.obj a) (.obj a) = jeqF a a from rfl]; exact jeqF_refl a

theorem jeqL_refl : ∀ a : List Json, jeqL a a = true
  | [] => rfl
  | a :: as => by
      rw [show jeqL (a :: as) (a :: as) = (jeq a a && jeqL as as) from rfl,
        jeq_refl a, jeqL_refl as]
      decide

theorem jeqF_refl : ∀ a : List (String × Json), jeqF a a = true
  | [] => rfl
  | (k, v) :: as => by
      rw [show jeqF ((k, v) :: as) ((k, v) :: as) = (k == k && jeq v v && jeqF as as) from rfl,
        jeq_refl v, jeqF_refl as]
      simp

end

/-- Reading back the key just written into the conversations map. -/
theorem mapGet_mapSet (m : List (Json × List Json)) (k : Json) (v : List Json) :
    mapGet (mapSet m k v) k = some v := by
  induction m with
  | nil => simp [mapSet, mapGet, jeq_refl]
  | cons a rest ih =>
    rcases a with ⟨ak, av⟩
    by_cases h : jeq ak k = true
    · simp [mapSet, mapGet, h]
    · rw [Bool.not_eq_true] at h
      simp [mapSet, mapGet, h, ih]

theorem lookupLast_some_contains (k : String) :
    ∀ (fs : List (String × Json)) (v : Json), lookupLast fs k = some v → containsKey fs k = true
  | [], v, h => by simp [lookupLast] at h
  | (ak, av) :: rest, v, h => by
      simp only [containsKey, List.any_cons, Bool.or_eq_true, beq_iff_eq]
      rcases hr : lookupLast rest k with _ | w
      · rw [show lookupLast ((ak, av) :: rest) k =
              (match lookupLast rest k with
               | some w => some w
               | none => if ak = k then some av else none) from rfl, hr] at h
        simp only at h
        by_cases hk : ak = k
        · exact Or.inl hk
        · rw [if_neg hk] at h
          cases h
      · refine Or.inr ?_
        have := lookupLast_some_contains k rest w hr
        simpa [containsKey] using this

-- Wrapper/body glue: for a non-null arguments value the first property
-- access succeeds and the handler body runs -------------------------------

theorem generateText_ne_null (prov : Provider) (dm : String) (st : ServerState)
    (id : Option Json) (a : Json) (h : a ≠ Json.null) :
    generateText prov dm st id (some a) = generateTextBody prov dm st id a := by
  rcases a with _ | b | q | s | xs | fs
  · exact absurd rfl h
  all_goals rfl

theorem analyzeImage_ne_null (prov : Provider) (dm : String) (st : ServerState)
    (id : Option Json) (a : Json) (h : a ≠ Json.null) :
    analyzeImage prov dm st id (some a) = analyzeImageBody prov dm st id a := by
  rcases a with _ | b | q | s | xs | fs
  · exact absurd rfl h
  all_goals rfl

theorem generateTextCont_id (prov : Provider) (st : ServerState) (id : Option Json)
    (a model : Json) (features : Option (List String)) (thinking : Bool) :
    (generateTextCont prov st id a model features thinking).resp.id = id := by
  unfold generateTextCont
  dsimp only
  split
  · rfl
  · split <;> rfl

theorem generateTextBody_id (prov : Provider) (dm : String) (st : ServerState)
    (id : Option Json) (a : Json) : (generateTextBody prov dm st id a).resp.id = id := by
  unfold generateTextBody
  dsimp only
  split
  · rfl
  · exact generateTextCont_id ..
  · exact generateTextCont_id ..

theorem generateText_id (prov : Provider) (dm : String) (st : ServerState)
    (id args : Option Json) : (generateText prov dm st id args).resp.id = id := by
  rcases args with _ | a
  · rfl
  · rcases a with _ | b | q | s | xs | fs
    · rfl
    all_goals exact generateTextBody_id ..

theorem analyzeImageBody_id (prov : Provider) (dm : String) (st : ServerState)
    (id : Option Json) (a : Json) : (analyzeImageBody prov dm st id a).resp.id = id := by
  unfold analyzeImageBody
  dsimp only
  split
  · rfl
  · rcases buildImagePart a with e | ⟨part, logs⟩
    · rfl
    · dsimp only
      split <;> rfl

theorem analyzeImage_id (prov : Provider) (dm : String) (st : ServerState)
    (id args : Option Json) : (analyzeImage prov dm st id args).resp.id = id := by
  rcases args with _ | a
  · rfl
  · rcases a with _ | b | q | s | xs | fs
    · rfl
    all_goals exact analyzeImageBody_id ..

theorem countTokensBody_id (prov : Provider) (dm : String) (st : ServerState)
    (id : Option Json) (a : Json) : (countTokensBody prov dm st id a).resp.id = id := by
  unfold countTokensBody
  dsimp only
  split <;> rfl

theorem countTokens_id (prov : Provider) (dm : String) (st : ServerState)
    (id args : Option Json) : (countTokens prov dm st id args).resp.id = id := by
  rcases args with _ | a
  · rfl
  · rcases a with _ | b | q | s | xs | fs
    · rfl
    all_goals exact countTokensBody_id ..

theorem embedTextBody_id (prov : Provider) (st : ServerState)
    (id : Option Json) (a : Json) : (embedTextBody prov st id a).resp.id = id := by
  unfold embedTextBody
  dsimp only
  split <;> rfl

theorem embedText_id (prov : Provider) (st : ServerState)
    (id args : Option Json) : (embedText prov st id args).resp.id = id := by
  rcases args with _ | a
  · rfl
  · rcases a with _ | b | q | s | xs | fs
    · rfl
    all_goals exact embedTextBody_id ..

theorem listModels_id (id args : Option Json) : (listModels id args).id = id := rfl

theorem getHelp_id (id args : Option Json) : (getHelp id args).id = id := rfl

theorem handleResourceRead_id (req : Json) : (handleResourceRead req).id = getProp req "id" := by
  unfold handleResourceRead
  dsimp only
  split
  · rfl
  · split <;> try rfl
    split <;> try rfl
    split <;> try rfl
    split <;> try rfl
    split <;> rfl

theorem handleToolCall_id (prov : Provider) (dm : String) (st : ServerState) (req : Json) :
    (handleToolCall prov dm st req).resp.id = getProp req "id" := by
  unfold handleToolCall
  dsimp only
  split
  · exact generateText_id ..
  · split
    · exact analyzeImage_id ..
    · split
      · exact countTokens_id ..
      · split
        · exact listModels_id ..
        · split
          · exact embedText_id ..
          · split
            · exact getHelp_id ..
            · rfl

/-- Every branch of the request body with an id-bearing object request
produces exactly one response echoing that id. -/
theorem handleRequestBody_id (prov : Provider) (dm : String) (st : ServerState)
    (fs : List (String × Json)) (idv : Json) (h : lookupLast fs "id" = some idv) :
    ∃ st2 r logs calls,
      handleRequestBody prov dm st (.obj fs) = .ok ⟨st2, some r, logs, calls⟩ ∧ r.id = some idv := by
  unfold handleRequestBody
  dsimp only
  split
  · exact ⟨st, _, [], [], rfl, h⟩
  · split
    · exact ⟨st, _, [], [], rfl, h⟩
    · split
      · refine ⟨_, _, _, _, rfl, ?_⟩
        rw [handleToolCall_id]
        exact h
      · split
        · exact ⟨st, _, [], [], rfl, h⟩
        · split
          · refine ⟨st, _, [], [], rfl, ?_⟩
            rw [handleResourceRead_id]
            exact h
          · split
            · exact ⟨st, _, [], [], rfl, h⟩
            · split
              · exact ⟨st, _, [], [], rfl, h⟩
              · have hc := lookupLast_some_contains "id" fs idv h
                simp only [jsInE, hc]
                exact ⟨st, _, [], [], rfl, h⟩

/-- C1: for every well-formed request carrying an identifier that is
dispatched to the router (handleRequest), exactly one response is written
to the output channel, and its identifier field equals exactly the
identifier received in the request - for every known method and for the
unknown-method error path alike (the universally quantified method field
covers both). -/
theorem C1_unique_response_echoes_id (prov : Provider) (dm : String) (st : ServerState)
    (req : Json) (idv : Json) (h : getProp req "id" = some idv) :
    ∃ st2 r logs calls,
      handleRequest prov dm st req = .ok ⟨st2, [r], logs, calls⟩ ∧ r.id = some idv := by
  rcases req with _ | b | q | s | xs | fs
  case null => simp [getProp] at h
  case bool => simp [getProp] at h
  case num => simp [getProp] at h
  case str => simp [getProp] at h
  case arr => simp [getProp] at h
  case obj =>
    have h' : lookupLast fs "id" = some idv := h
    obtain ⟨st2, r, logs, calls, hb, hid⟩ := handleRequestBody_id prov dm st fs idv h'
    refine ⟨st2, r, ("Handling request: " ++ jsToStringO (lookupLast fs "method")) :: logs, calls, ?_, hid⟩
    unfold handleRequest
    dsimp only [jsGetPropE]
    rw [hb]
    rfl

/-- Witness for C1 at a concrete ping request with identifier 1. -/
theorem C1_witness :
    getProp (Json.obj [("id", .num 1), ("method", .str "ping")]) "id" = some (.num 1) ∧
    ∃ st2 r logs calls,
      handleRequest failProvider dm0 st0 (Json.obj [("id", .num 1), ("method", .str "ping")]) =
        .ok ⟨st2, [r], logs, calls⟩ ∧ r.id = some (.num 1) :=
  ⟨rfl, C1_unique_response_echoes_id failProvider dm0 st0 _ _ rfl⟩

/-- C2: whenever the request-handling body (the try-block containing every
method handler) raises an exception, the router catch converts it into
exactly one typed internal-error response, code -32603, whose id field is
exactly the request id field, and handleRequest itself returns normally
(Except.ok), so the exception never propagates out of the request-handling
layer.  (The only request whose processing escapes this catch is the JSON
value null, whose entry-stage logging throws before the try-block; it
carries no handler and no identifier.) -/
theorem C2_router_catches_handler_exceptions (prov : Provider) (dm : String)
    (st : ServerState) (req : Json) (e : Exn) (hnn : req ≠ Json.null)
    (hb : handleRequestBody prov dm st req = .error e) :
    handleRequest prov dm st req = .ok
      ⟨st,
       [{ id := getProp req "id", result := none
          error := some ⟨-32603, exnMessage e "Internal error"⟩ }],
       ["Handling request: " ++ jsToStringO (getProp req "method")], []⟩ := by
  rcases req with _ | b | q | s | xs | fs
  case null => exact absurd rfl hnn
  all_goals
    unfold handleRequest
    dsimp only [jsGetPropE]
    rw [hb]
    rfl

/-- Witness for C2: the body throws a TypeError for the primitive request
5 (the in-operator on a non-object), and the router catches it into the
-32603 response. -/
theorem C2_witness :
    (Json.num 5 ≠ Json.null) ∧
    handleRequestBody failProvider dm0 st0 (Json.num 5) =
      .error (.jsError "Cannot use \x27in\x27 operator to search for \x27id\x27 in 5") ∧
    handleRequest failProvider dm0 st0 (Json.num 5) = .ok
      ⟨st0,
       [{ id := none, result := none
          error := some ⟨-32603, "Cannot use \x27in\x27 operator to search for \x27id\x27 in 5"⟩ }],
       ["Handling request: undefined"], []⟩ :=
  ⟨fun h => Json.noConfusion h, rfl,
   C2_router_catches_handler_exceptions failProvider dm0 st0 (Json.num 5) _
     (fun h => Json.noConfusion h) rfl⟩

/-- C3: the encoder (sendResponse) turns every Response value into exactly
one self-contained line - no embedded newline or carriage return, exactly
one terminating newline - and the line handler writes nothing to the
output channel except such encoded responses (all diagnostics travel on
the separate stderr list of the model). -/
theorem C3_encoder_line_discipline :
    (∀ r : MCPResponse,
       lbCount (sendResponse r) = 1 ∧ (sendResponse r).data.getLast? = some '\n') ∧
    (∀ (parse : String → Option Json) (prov : Provider) (dm : String) (st : ServerState)
       (line : String) (w : String), w ∈ (onLine parse prov dm st line).stdout →
       ∃ r : MCPResponse, w = sendResponse r) := by
  constructor
  · intro r
    exact ⟨sendResponse_lbCount r, sendResponse_last r⟩
  · intro parse prov dm st line w hw
    unfold onLine at hw
    split at hw
    · simp at hw
    · split at hw
      · simp at hw
      · split at hw
        · simp only [List.mem_map] at hw
          obtain ⟨r, -, hr⟩ := hw
          exact ⟨r, hr.symm⟩
        · simp at hw

/-- Witness for C3: the encoded ping response emitted for a concrete line
is itself an encoder output. -/
theorem C3_witness :
    (sendResponse { id := some (.num 1), result := some (.obj []), error := none } ∈
      (onLine (fun _ => some (Json.obj [("id", .num 1), ("method", .str "ping")]))
        failProvider dm0 st0 "x").stdout) ∧
    ∃ r : MCPResponse,
      sendResponse { id := some (.num 1), result := some (.obj []), error := none } =
        sendResponse r := by
  have hmem : sendResponse { id := some (.num 1), result := some (.obj []), error := none } ∈
      (onLine (fun _ => some (Json.obj [("id", .num 1), ("method", .str "ping")]))
        failProvider dm0 st0 "x").stdout := by
    rw [show (onLine (fun _ => some (Json.obj [("id", .num 1), ("method", .str "ping")]))
          failProvider dm0 st0 "x").stdout =
        [sendResponse { id := some (.num 1), result := some (.obj []), error := none }] from rfl]
    exact List.mem_singleton_self _
  exact ⟨hmem,
    C3_encoder_line_discipline.2 (fun _ => some (Json.obj [("id", .num 1), ("method", .str "ping")]))
      failProvider dm0 st0 "x" _ hmem⟩

/-- With method tools/call, the body delegates to the tool dispatcher. -/
theorem handleRequestBody_toolsCall (prov : Provider) (dm : String) (st : ServerState)
    (fs : List (String × Json)) (hm : lookupLast fs "method" = some (.str "tools/call")) :
    handleRequestBody prov dm st (.obj fs) = .ok
      ⟨(handleToolCall prov dm st (.obj fs)).state,
       some (handleToolCall prov dm st (.obj fs)).resp,
       (handleToolCall prov dm st (.obj fs)).errLog,
       (handleToolCall prov dm st (.obj fs)).calls⟩ := by
  unfold handleRequestBody
  dsimp only [getProp]
  rw [hm]
  rfl

/-- A tools/call whose name matches none of the six registered tools falls
through to the invalid-params unknown-tool error. -/
theorem handleToolCall_unknown (prov : Provider) (dm : String) (st : ServerState) (req : Json)
    (h1 : isStr (getProp (jsOr (getProp req "params") (.obj [])) "name") "generate_text" = false)
    (h2 : isStr (getProp (jsOr (getProp req "params") (.obj [])) "name") "analyze_image" = false)
    (h3 : isStr (getProp (jsOr (getProp req "params") (.obj [])) "name") "count_tokens" = false)
    (h4 : isStr (getProp (jsOr (getProp req "params") (.obj [])) "name") "list_models" = false)
    (h5 : isStr (getProp (jsOr (getProp req "params") (.obj [])) "name") "embed_text" = false)
    (h6 : isStr (getProp (jsOr (getProp req "params") (.obj [])) "name") "get_help" = false) :
    handleToolCall prov dm st req =
      ⟨st,
       { id := getProp req "id", result := none
         error := some ⟨-32602,
           "Unknown tool: " ++ jsToStringO (getProp (jsOr (getProp req "params") (.obj [])) "name")⟩ },
       [], []⟩ := by
  unfold handleToolCall
  dsimp only
  simp only [h1, h2, h3, h4, h5, h6]
  rfl

/-- C4: a tools/call request whose tool name is not one of the six
registered tools is answered with the RPC-level invalid-params error
-32602 (and -32602 is not the internal-error code -32603). -/
theorem C4_unknown_tool_is_invalid_params (prov : Provider) (dm : String) (st : ServerState)
    (fs : List (String × Json))
    (hm : lookupLast fs "method" = some (.str "tools/call"))
    (hname : toolNames.all
      (fun s => !(isStr (getProp (jsOr (getProp (Json.obj fs) "params") (.obj [])) "name") s)) = true) :
    handleRequest prov dm st (.obj fs) = .ok
      ⟨st,
       [{ id := lookupLast fs "id", result := none
          error := some ⟨-32602,
            "Unknown tool: " ++
              jsToStringO (getProp (jsOr (getProp (Json.obj fs) "params") (.obj [])) "name")⟩ }],
       ["Handling request: tools/call"], []⟩ ∧ ((-32602 : Int) ≠ -32603) := by
  have hname' := hname
  simp only [toolNames, List.all_cons, List.all_nil, Bool.and_eq_true, Bool.not_eq_true',
    and_true] at hname'
  obtain ⟨h1, h2, h3, h4, h5, h6⟩ := hname'
  refine ⟨?_, by norm_num⟩
  have ht := handleToolCall_unknown prov dm st (.obj fs) h1 h2 h3 h4 h5 h6
  unfold handleRequest
  dsimp only [jsGetPropE]
  rw [hm, handleRequestBody_toolsCall prov dm st fs hm, ht]
  rfl

/-- Witness for C4 at the concrete unregistered tool name bogus. -/
theorem C4_witness :
    lookupLast [("id", Json.num 4), ("method", Json.str "tools/call"),
        ("params", Json.obj [("name", Json.str "bogus")])] "method" = some (.str "tools/call") ∧
    handleRequest failProvider dm0 st0
      (.obj [("id", Json.num 4), ("method", Json.str "tools/call"),
             ("params", Json.obj [("name", Json.str "bogus")])]) = .ok
      ⟨st0,
       [{ id := some (.num 4), result := none
          error := some ⟨-32602, "Unknown tool: bogus"⟩ }],
       ["Handling request: tools/call"], []⟩ :=
  ⟨rfl,
   (C4_unknown_tool_is_invalid_params failProvider dm0 st0
     [("id", Json.num 4), ("method", Json.str "tools/call"),
      ("params", Json.obj [("name", Json.str "bogus")])] rfl rfl).1⟩

/-- Counterexample to C6 as stated: a tools-call argument object that
supplies BOTH imageUrl and imageBase64 (so not exactly one of the two) is
not rejected - the response carries no RPC error and its payload has no
isError flag, refuting the claim that every such call is rejected with a
tool-execution-level error. -/
theorem C6_counterexample :
    (analyzeImage okProvider dm0 st0 (some (.num 1))
       (some (.obj [("prompt", .str "p"), ("imageUrl", .str "u"),
                    ("imageBase64", .str "b")]))).resp.error = none ∧
    getProp ((analyzeImage okProvider dm0 st0 (some (.num 1))
       (some (.obj [("prompt", .str "p"), ("imageUrl", .str "u"),
                    ("imageBase64", .str "b")]))).resp.result.getD .null) "isError" = none ∧
    truthyO (getProp (.obj [("prompt", .str "p"), ("imageUrl", .str "u"),
                            ("imageBase64", .str "b")]) "imageUrl") = true ∧
    truthyO (getProp (.obj [("prompt", .str "p"), ("imageUrl", .str "u"),
                            ("imageBase64", .str "b")]) "imageBase64") = true :=
  ⟨rfl, rfl, rfl, rfl⟩

/-- C6 amended: analyze_image rejects a call with a tool-execution-level
error (an isError payload inside a successful envelope, no RPC error, no
provider call, state unchanged) when NEITHER imageUrl nor imageBase64 is
supplied; a call whose whole arguments member is missing or null is
likewise rejected with a tool-execution-level error carrying the
TypeError message of the first property access args.model; supplying both
inputs is accepted with imageUrl taking precedence; and generate_text
performs no presence check on prompt - a call without one is still
forwarded to the provider as a single call whose user turn carries no
text field. -/
theorem C6_missing_field_tool_error_amended :
    (∀ (prov : Provider) (dm : String) (st : ServerState) (id : Option Json) (a : Json),
       a ≠ Json.null →
       truthyO (getProp a "imageUrl") = false → truthyO (getProp a "imageBase64") = false →
       analyzeImage prov dm st id (some a) =
         errToolOut st id "Image analysis failed: Either imageUrl or imageBase64 must be provided"
           ["Error in analyzeImage:"] []) ∧
    (∀ (prov : Provider) (dm : String) (st : ServerState) (id : Option Json),
       analyzeImage prov dm st id none =
         errToolOut st id "Image analysis failed: Cannot read properties of undefined (reading \x27model\x27)"
           ["Error in analyzeImage:"] [] ∧
       analyzeImage prov dm st id (some .null) =
         errToolOut st id "Image analysis failed: Cannot read properties of null (reading \x27model\x27)"
           ["Error in analyzeImage:"] []) ∧
    (∀ (prov : Provider) (dm : String) (st : ServerState) (id : Option Json) (a u b res : Json),
       getProp a "imageUrl" = some u → u.truthy = true →
       getProp a "imageBase64" = some b → b.truthy = true →
       (∀ m c g, prov.generateContent m c g = .ok res) →
       (analyzeImage prov dm st id (some a)).resp =
         { id := id
           result := some (.obj [("content", .arr [textContent (jsOr (getProp res "text") (.str ""))])])
           error := none }) ∧
    (∀ (prov : Provider) (dm : String) (st : ServerState) (id : Option Json) (a : Json)
       (mi : ModelInfo) (cfg : Json),
       a ≠ Json.null →
       getProp a "prompt" = none → getProp a "conversationId" = none →
       lookupModel (jsOr (getProp a "model") (.str dm)) = .info mi →
       buildGenConfig a (some mi.features) mi.thinking = .ok cfg →
       (generateText prov dm st id (some a)).calls =
         [.generateContent (jsOr (getProp a "model") (.str dm)) [mkTurn none "user"] (some cfg)]) := by
  refine ⟨?_, ?_, ?_, ?_⟩
  · intro prov dm st id a hnn h1 h2
    rw [analyzeImage_ne_null prov dm st id a hnn]
    unfold analyzeImageBody
    dsimp only
    simp only [h1, h2, Bool.not_false, Bool.and_self, if_true]
  · intro prov dm st id
    exact ⟨rfl, rfl⟩
  · intro prov dm st id a u b res hu hut hb hbt hprov
    have hnn : a ≠ Json.null := by
      intro h
      rw [h] at hu
      simp [getProp] at hu
    rw [analyzeImage_ne_null prov dm st id a hnn]
    unfold analyzeImageBody
    dsimp only
    rw [hu]
    simp only [truthyO, hut, Bool.not_true, Bool.false_and, Bool.false_eq_true, if_false]
    unfold buildImagePart
    rw [hu]
    simp only [truthyO, hut, if_true]
    rw [hprov]
  · intro prov dm st id a mi cfg hnn hp hc hmi hcfg
    rw [generateText_ne_null prov dm st id a hnn]
    unfold generateTextBody
    dsimp only
    rw [hmi]
    dsimp only
    unfold generateTextCont
    dsimp only
    rw [hcfg]
    dsimp only
    rw [hp, hc]
    simp only [truthyO, Bool.false_eq_true, if_false]
    split <;> rfl

/-- Witness for the amended C6 at concrete inputs: a call with neither
image input, calls whose arguments member is missing, and a generate_text
call without prompt. -/
theorem C6_witness :
    analyzeImage failProvider dm0 st0 (some (.num 1)) (some (.obj [("prompt", .str "p")])) =
      errToolOut st0 (some (.num 1))
        "Image analysis failed: Either imageUrl or imageBase64 must be provided"
        ["Error in analyzeImage:"] [] ∧
    analyzeImage failProvider dm0 st0 (some (.num 3)) none =
      errToolOut st0 (some (.num 3))
        "Image analysis failed: Cannot read properties of undefined (reading \x27model\x27)"
        ["Error in analyzeImage:"] [] ∧
    (generateText failProvider dm0 st0 (some (.num 2))
       (some (.obj [("model", .str "gemini-2.5-flash")]))).calls =
      [.generateContent (.str "gemini-2.5-flash") [mkTurn none "user"]
         (some (.obj [("temperature", .num 1), ("maxOutputTokens", .num 2048),
                      ("topK", .num 40), ("topP", .num (19/20))]))] :=
  ⟨(C6_missing_field_tool_error_amended.1 failProvider dm0 st0 (some (.num 1))
     (.obj [("prompt", .str "p")]) (fun h => Json.noConfusion h) rfl rfl),
   (C6_missing_field_tool_error_amended.2.1 failProvider dm0 st0 (some (.num 3))).1,
   C6_missing_field_tool_error_amended.2.2.2 failProvider dm0 st0 (some (.num 2))
     (.obj [("model", .str "gemini-2.5-flash")]) _ _ (fun h => Json.noConfusion h)
     rfl rfl rfl rfl⟩

/-- One successful generate_text call that carries a truthy conversation
identifier and no explicit model: the provider receives the stored prior
turns (when any) followed by the new user turn, and the store gains the
user turn then the model turn. -/
theorem generateText_conv (prov : Provider) (dm : String) (st : ServerState)
    (id p cid res : Json) (mi : ModelInfo)
    (hcid : cid.truthy = true)
    (hdm : lookupModel (.str dm) = .info mi)
    (hprov : ∀ m c g, prov.generateContent m c g = .ok res) :
    ∃ r, generateText prov dm st (some id) (some (.obj [("prompt", p), ("conversationId", cid)])) =
      { state := ⟨mapSet st.conversations cid
          (((mapGet st.conversations cid).getD []) ++
           [mkTurn (some p) "user", mkTurn (some (jsOr (getProp res "text") (.str ""))) "model"])⟩
        resp := r
        errLog := []
        calls := [.generateContent (.str dm)
          (if 0 < ((mapGet st.conversations cid).getD []).length
           then ((mapGet st.conversations cid).getD []) ++ [mkTurn (some p) "user"]
           else [mkTurn (some p) "user"])
          (some (.obj [("temperature", .num 1), ("maxOutputTokens", .num 2048),
                       ("topK", .num 40), ("topP", .num (19/20))]))] } := by
  rw [show generateText prov dm st (some id)
        (some (.obj [("prompt", p), ("conversationId", cid)])) =
      generateTextBody prov dm st (some id) (.obj [("prompt", p), ("conversationId", cid)]) from rfl]
  unfold generateTextBody
  dsimp only [getProp]
  rw [show lookupLast [("prompt", p), ("conversationId", cid)] "model" = none from rfl]
  dsimp only [jsOr]
  rw [hdm]
  dsimp only
  unfold generateTextCont
  dsimp only [getProp]
  rw [show buildGenConfig (Json.obj [("prompt", p), ("conversationId", cid)])
        (some mi.features) mi.thinking =
      .ok (Json.obj [("temperature", .num 1), ("maxOutputTokens", .num 2048),
                     ("topK", .num 40), ("topP", .num (19/20))]) from rfl]
  dsimp only
  rw [hprov]
  dsimp only
  rw [show lookupLast [("prompt", p), ("conversationId", cid)] "conversationId" = some cid from rfl,
      show lookupLast [("prompt", p), ("conversationId", cid)] "prompt" = some p from rfl]
  simp only [truthyO, hcid, if_true, Option.getD_some]
  exact ⟨_, rfl⟩

/-- C7: two sequential successful generate_text calls sharing a truthy
conversation identifier: the first call (on a previously-unseen
identifier) sends the provider only its own user turn, and the second
call sends the first call's user turn, then the first call's reply turn,
then its own new user turn, in that order. -/
theorem C7_conversation_context (prov : Provider) (dm : String) (st : ServerState)
    (id1 id2 p1 p2 cid res : Json) (mi : ModelInfo)
    (hcid : cid.truthy = true)
    (hfresh : mapGet st.conversations cid = none)
    (hdm : lookupModel (.str dm) = .info mi)
    (hprov : ∀ m c g, prov.generateContent m c g = .ok res) :
    ((generateText prov dm st (some id1)
        (some (.obj [("prompt", p1), ("conversationId", cid)]))).calls.map callContents =
      [[mkTurn (some p1) "user"]]) ∧
    ((generateText prov dm
        (generateText prov dm st (some id1)
          (some (.obj [("prompt", p1), ("conversationId", cid)]))).state
        (some id2)
        (some (.obj [("prompt", p2), ("conversationId", cid)]))).calls.map callContents =
      [[mkTurn (some p1) "user",
        mkTurn (some (jsOr (getProp res "text") (.str ""))) "model",
        mkTurn (some p2) "user"]]) := by
  obtain ⟨r1, h1⟩ := generateText_conv prov dm st id1 p1 cid res mi hcid hdm hprov
  rw [hfresh] at h1
  simp only [Option.getD_none, List.nil_append, List.length_nil, lt_self_iff_false,
    if_false] at h1
  constructor
  · rw [h1]
    rfl
  · rw [h1]
    obtain ⟨r2, h2⟩ := generateText_conv prov dm
      ⟨mapSet st.conversations cid
        [mkTurn (some p1) "user", mkTurn (some (jsOr (getProp res "text") (.str ""))) "model"]⟩
      id2 p2 cid res mi hcid hdm hprov
    simp only [mapGet_mapSet, Option.getD_some, List.length_cons, List.length_nil] at h2
    norm_num at h2
    rw [h2]
    rfl

/-- Witness for C7 at a concrete two-call conversation c. -/
theorem C7_witness :
    (Json.str "c").truthy = true ∧
    mapGet st0.conversations (.str "c") = none ∧
    ((generateText okProvider dm0 st0 (some (.num 1))
        (some (.obj [("prompt", .str "p1"), ("conversationId", .str "c")]))).calls.map callContents =
      [[mkTurn (some (.str "p1")) "user"]]) ∧
    ((generateText okProvider dm0
        (generateText okProvider dm0 st0 (some (.num 1))
          (some (.obj [("prompt", .str "p1"), ("conversationId", .str "c")]))).state
        (some (.num 2))
        (some (.obj [("prompt", .str "p2"), ("conversationId", .str "c")]))).calls.map callContents =
      [[mkTurn (some (.str "p1")) "user",
        mkTurn (some (jsOr (getProp (Json.obj [("text", .str "ok-reply")]) "text") (.str ""))) "model",
        mkTurn (some (.str "p2")) "user"]]) :=
  ⟨rfl, rfl,
   (C7_conversation_context okProvider dm0 st0 (.num 1) (.num 2) (.str "p1") (.str "p2")
      (.str "c") (.obj [("text", .str "ok-reply")]) _ rfl rfl rfl (fun _ _ _ => rfl)).1,
   (C7_conversation_context okProvider dm0 st0 (.num 1) (.num 2) (.str "p1") (.str "p2")
      (.str "c") (.obj [("text", .str "ok-reply")]) _ rfl rfl rfl (fun _ _ _ => rfl)).2⟩

/-- Counterexample to C8 as stated: after a successful conversational
call, the second stored turn carries role model, which is not in the set
containing user and assistant, refuting the claim that every stored turn
role is drawn from that set. -/
theorem C8_counterexample :
    mapGet (generateText okProvider dm0 st0 (some (.num 1))
        (some (.obj [("prompt", .str "hi"), ("conversationId", .str "c")]))).state.conversations
      (.str "c") =
      some [mkTurn (some (.str "hi")) "user", mkTurn (some (.str "ok-reply")) "model"] ∧
    getProp (mkTurn (some (.str "ok-reply")) "model") "role" = some (.str "model") ∧
    ("model" ≠ "user" ∧ "model" ≠ "assistant") :=
  ⟨rfl, rfl, by decide, by decide⟩

/-- C8 amended: on every successful generate_text call carrying a truthy
conversation identifier, exactly two turns are appended - first a turn
with role user, then a turn with role model (the provider vocabulary for
the assistant role) - so every stored role is drawn from the set
containing user and model. -/
theorem C8_turn_roles_amended (prov : Provider) (dm : String) (st : ServerState)
    (id : Option Json) (a cid res : Json) (mi : ModelInfo) (cfg : Json)
    (hc : getProp a "conversationId" = some cid) (hct : cid.truthy = true)
    (hmi : lookupModel (jsOr (getProp a "model") (.str dm)) = .info mi)
    (hcfg : buildGenConfig a (some mi.features) mi.thinking = .ok cfg)
    (hprov : ∀ m c g, prov.generateContent m c g = .ok res) :
    mapGet (generateText prov dm st id (some a)).state.conversations cid =
      some (((mapGet st.conversations cid).getD []) ++
        [mkTurn (getProp a "prompt") "user",
         mkTurn (some (jsOr (getProp res "text") (.str ""))) "model"]) ∧
    getProp (mkTurn (getProp a "prompt") "user") "role" = some (.str "user") ∧
    getProp (mkTurn (some (jsOr (getProp res "text") (.str ""))) "model") "role" =
      some (.str "model") ∧
    ("user" ∈ ["user", "model"] ∧ "model" ∈ ["user", "model"]) := by
  refine ⟨?_, ?_, ?_, by decide, by decide⟩
  · have hnn : a ≠ Json.null := by
      intro h
      rw [h] at hc
      simp [getProp] at hc
    rw [generateText_ne_null prov dm st id a hnn]
    unfold generateTextBody
    dsimp only
    rw [hmi]
    dsimp only
    unfold generateTextCont
    dsimp only
    rw [hcfg]
    dsimp only
    rw [hprov]
    dsimp only
    rw [hc]
    simp only [truthyO, hct, if_true, Option.getD_some]
    exact mapGet_mapSet ..
  · cases getProp a "prompt" <;> rfl
  · rfl

/-- Witness for the amended C8 at a concrete conversation c8. -/
theorem C8_witness :
    getProp (Json.obj [("prompt", .str "q"), ("conversationId", .str "c8")]) "conversationId" =
      some (.str "c8") ∧
    mapGet (generateText okProvider dm0 st0 (some (.num 9))
        (some (.obj [("prompt", .str "q"), ("conversationId", .str "c8")]))).state.conversations
      (.str "c8") =
      some (((mapGet st0.conversations (.str "c8")).getD []) ++
        [mkTurn (getProp (Json.obj [("prompt", .str "q"), ("conversationId", .str "c8")]) "prompt") "user",
         mkTurn (some (jsOr (getProp (Json.obj [("text", .str "ok-reply")]) "text") (.str ""))) "model"]) :=
  ⟨rfl,
   (C8_turn_roles_amended okProvider dm0 st0 (some (.num 9))
      (.obj [("prompt", .str "q"), ("conversationId", .str "c8")]) (.str "c8")
      (.obj [("text", .str "ok-reply")]) _ _ rfl rfl rfl rfl (fun _ _ _ => rfl)).1⟩

/-- C9: an input line that is only whitespace, or that the JSON parse
rejects, produces no output-channel write at all and leaves the state
unchanged (the parse failure is reported only on the diagnostic channel),
and processing of the remaining lines continues exactly as if the bad
line had not been there (up to its diagnostic lines). -/
theorem C9_malformed_line_no_response (parse : String → Option Json) (prov : Provider)
    (dm : String) (st : ServerState) (line : String) (ls : List String)
    (h : isBlankLine line = true ∨ parse line = none) :
    (∃ errs, onLine parse prov dm st line = ⟨st, [], errs, [], none⟩) ∧
    processLines parse prov dm st (line :: ls) =
      ⟨(processLines parse prov dm st ls).state,
       (processLines parse prov dm st ls).stdout,
       (onLine parse prov dm st line).stderr ++ (processLines parse prov dm st ls).stderr,
       (processLines parse prov dm st ls).calls,
       (processLines parse prov dm st ls).crashed⟩ := by
  have honl : ∃ errs, onLine parse prov dm st line = ⟨st, [], errs, [], none⟩ := by
    rcases h with h | h
    · refine ⟨[], ?_⟩
      unfold onLine
      rw [h]
      rfl
    · by_cases hb : isBlankLine line = true
      · refine ⟨[], ?_⟩
        unfold onLine
        rw [hb]
        rfl
      · refine ⟨["Failed to parse message:"], ?_⟩
        unfold onLine
        rw [Bool.not_eq_true] at hb
        rw [hb, h]
        rfl
  obtain ⟨errs, he⟩ := honl
  refine ⟨⟨errs, he⟩, ?_⟩
  have hcons : processLines parse prov dm st (line :: ls) =
      (match (onLine parse prov dm st line).crashed with
       | some e =>
         ⟨(onLine parse prov dm st line).state, (onLine parse prov dm st line).stdout,
          (onLine parse prov dm st line).stderr, (onLine parse prov dm st line).calls, some e⟩
       | none =>
         ⟨(processLines parse prov dm (onLine parse prov dm st line).state ls).state,
          (onLine parse prov dm st line).stdout ++
            (processLines parse prov dm (onLine parse prov dm st line).state ls).stdout,
          (onLine parse prov dm st line).stderr ++
            (processLines parse prov dm (onLine parse prov dm st line).state ls).stderr,
          (onLine parse prov dm st line).calls ++
            (processLines parse prov dm (onLine parse prov dm st line).state ls).calls,
          (processLines parse prov dm (onLine parse prov dm st line).state ls).crashed⟩) := rfl
  rw [hcons, he]
  rfl

/-- Witness for C9: a concrete un-parseable line followed by one more
line. -/
theorem C9_witness :
    (isBlankLine "not json" = true ∨ (fun (_ : String) => (none : Option Json)) "not json" = none) ∧
    (∃ errs, onLine (fun _ => none) failProvider dm0 st0 "not json" = ⟨st0, [], errs, [], none⟩) ∧
    processLines (fun _ => none) failProvider dm0 st0 ["not json", "x"] =
      ⟨(processLines (fun _ => none) failProvider dm0 st0 ["x"]).state,
       (processLines (fun _ => none) failProvider dm0 st0 ["x"]).stdout,
       (onLine (fun _ => none) failProvider dm0 st0 "not json").stderr ++
         (processLines (fun _ => none) failProvider dm0 st0 ["x"]).stderr,
       (processLines (fun _ => none) failProvider dm0 st0 ["x"]).calls,
       (processLines (fun _ => none) failProvider dm0 st0 ["x"]).crashed⟩ :=
  ⟨Or.inr rfl,
   (C9_malformed_line_no_response (fun _ => none) failProvider dm0 st0 "not json" ["x"]
      (Or.inr rfl)).1,
   (C9_malformed_line_no_response (fun _ => none) failProvider dm0 st0 "not json" ["x"]
      (Or.inr rfl)).2⟩

/-- C10: the vision filter of list_models keeps every registered model -
it tests the function_calling feature, which all five models declare - so
the rendered model list (the content part of the result) is identical to
the one the all filter produces, and both report a count of 5. -/
theorem C10_vision_filter_matches_all (idv : Option Json) :
    ((listModels idv (some (.obj [("filter", .str "vision")]))).result.bind
       (fun p => getProp p "content")) =
      ((listModels idv (some (.obj [("filter", .str "all")]))).result.bind
       (fun p => getProp p "content")) ∧
    GEMINI_MODELS.filter (fun m => filterKeep (.str "vision") m.2) = GEMINI_MODELS ∧
    GEMINI_MODELS.all (fun m => m.2.features.contains "function_calling") = true ∧
    GEMINI_MODELS.length = 5 ∧
    (((listModels idv (some (.obj [("filter", .str "vision")]))).result.bind
       (fun p => getProp p "metadata")).bind (fun m => getProp m "count") = some (.num 5)) ∧
    (((listModels idv (some (.obj [("filter", .str "all")]))).result.bind
       (fun p => getProp p "metadata")).bind (fun m => getProp m "count") = some (.num 5)) :=
  ⟨rfl, rfl, rfl, rfl, rfl, rfl⟩
